import Mathlib

/-!
Verification of `pytorch_lightning/plugins/precision/apex_amp.py`
(`ApexMixedPrecisionPlugin`), a mixed-precision training coordinator around
the external NVIDIA apex AMP backend.

The Python class is shallowly embedded: each method becomes a pure Lean
function over explicit state.  Object identity of optimizers is modelled by a
numeric id, the opaque apex scaler state by a `Nat` blob, the checkpoint
`Dict[str, Any]` (restricted to the reserved slot this plugin touches) by an
association list, and raised `MisconfigurationException`s by `Except` /
`Option` error components.  External apex calls (`amp.initialize`,
`amp.scale_loss`, the inherited `super().backward`) are universally
quantified function parameters, so the theorems hold for every backend
behaviour.
-/

namespace ApexAmp

/-- An optimizer object; `oid` stands for Python object identity. -/
structure Optimizer where
  oid : Nat
deriving DecidableEq, Repr

/-- A raised `MisconfigurationException`, carrying its message. -/
structure MisconfigurationException where
  message : String
deriving DecidableEq, Repr

/-! ### Construction (`__init__`, lines 36-44) -/

/-- The plugin's own attributes set by `__init__`. -/
structure ApexMixedPrecisionPlugin where
  amp_level : String
  connected : Bool
deriving DecidableEq, Repr

/-- The exact message of the `MisconfigurationException` raised at
construction when apex is unavailable (lines 39-40; Python juxtaposes the
two string literals). -/
def apexNotInstalledMsg : String :=
  "You have asked for Apex AMP but you have not installed it." ++
    " Install `apex` using this guide: https://github.com/NVIDIA/apex"

/-- `ApexMixedPrecisionPlugin.__init__(amp_level)` (lines 36-44):
raises `MisconfigurationException` immediately when `_APEX_AVAILABLE` is
false; otherwise sets `amp_level` and `_connected = False`. -/
def ApexMixedPrecisionPlugin.init (apexAvailable : Bool) (amp_level : String) :
    Except MisconfigurationException ApexMixedPrecisionPlugin :=
  if !apexAvailable then
    .error ⟨apexNotInstalledMsg⟩
  else
    .ok { amp_level := amp_level, connected := false }

/-! ### `dispatch` (lines 49-56) -/

/-- The state `dispatch` reads and writes: the plugin's `_connected` flag
and `amp_level`, the driver's (`trainer.accelerator`) optimizer list, and a
ghost counter of how many `amp.initialize` calls have been performed. -/
structure DispatchState where
  connected : Bool
  amp_level : String
  optimizers : List Optimizer
  backendInitCalls : Nat
deriving DecidableEq, Repr

/-- `dispatch(trainer)` (lines 49-56): when not yet connected, calls the
external backend `amp.initialize(module, optimizers, opt_level)` (modelled
by the arbitrary function `backendInit`, of the opt-level and the optimizer
list; the returned model is discarded by the source), commits the returned
optimizer list into the driver's slot and sets `_connected`; otherwise does
nothing.  `super().dispatch` is a pass-through. -/
def dispatch (backendInit : String → List Optimizer → List Optimizer)
    (s : DispatchState) : DispatchState :=
  if !s.connected then
    { connected := true
      amp_level := s.amp_level
      optimizers := backendInit s.amp_level s.optimizers
      backendInitCalls := s.backendInitCalls + 1 }
  else
    s

/-! ### `optimizer_step` (lines 99-116) -/

/-- The model argument of `optimizer_step`: either a driver-aware
`pl.LightningModule` (with its `automatic_optimization` flag) or a plain
`torch.nn.Module`. -/
inductive StepModel where
  | lightningModule (automatic_optimization : Bool)
  | plainModule
deriving DecidableEq, Repr

/-- An optimizer as seen by `optimizer_step`; `isLBFGS` models
`isinstance(optimizer, LBFGS)`. -/
structure StepOptimizer where
  isLBFGS : Bool
deriving DecidableEq, Repr

/-- Observable effects of one `optimizer_step` call: how often the closure,
the `_after_closure` hook and the real `optimizer.step` ran, and the raised
exception if any. -/
structure StepOutcome where
  closureCalls : Nat
  afterClosureCalls : Nat
  stepCalls : Nat
  error : Option MisconfigurationException
deriving DecidableEq, Repr

/-- The message of the LBFGS incompatibility error (lines 108-110). -/
def lbfgsErrorMsg (optimizer_idx : Nat) : String :=
  "apex AMP and the LBFGS optimizer are not compatible (optimizer " ++
    toString optimizer_idx ++ ")."

/-- `optimizer_step(model, optimizer, optimizer_idx, closure)`
(lines 99-116).  `closureResult` is the value `closure()` would return
(`none` models Python `None`).  With an LBFGS optimizer the exception is
raised before the closure runs.  Otherwise the closure and `_after_closure`
run once, `skipped_backward = closure_result is None`, and `optimizer.step`
runs iff `not isinstance(model, pl.LightningModule) or not
model.automatic_optimization or not skipped_backward` (line 115). -/
def optimizer_step (model : StepModel) (optimizer : StepOptimizer)
    (optimizer_idx : Nat) (closureResult : Option Int) : StepOutcome :=
  if optimizer.isLBFGS then
    { closureCalls := 0
      afterClosureCalls := 0
      stepCalls := 0
      error := some ⟨lbfgsErrorMsg optimizer_idx⟩ }
  else
    let skipped_backward := closureResult.isNone
    let isLM := match model with
      | .lightningModule _ => true
      | .plainModule => false
    let autoOpt := match model with
      | .lightningModule b => b
      | .plainModule => false
    { closureCalls := 1
      afterClosureCalls := 1
      stepCalls := if !isLM || !autoOpt || !skipped_backward then 1 else 0
      error := none }

/-! ### `backward` (lines 58-75) -/

/-- The argument the source passes to `amp.scale_loss` as its optimizer:
line 73 `opt = optimizer or model.trainer.optimizers` yields either the
single explicit optimizer object or the trainer's whole optimizer list. -/
inductive AmpOptArg where
  | single (o : Optimizer)
  | many (os : List Optimizer)
deriving DecidableEq, Repr

/-- Line 73: `opt = optimizer or model.trainer.optimizers`.  An `Optimizer`
object is always truthy, `None` is falsy, so the explicit argument wins when
present and otherwise the full `model.trainer.optimizers` list is used. -/
def resolveBackwardOpt (optimizer : Option Optimizer)
    (trainerOptimizers : List Optimizer) : AmpOptArg :=
  match optimizer with
  | some o => .single o
  | none => .many trainerOptimizers

/-- Backend-side state observed by `backward`: the scaler's current loss
scale and whether optimizer gradients are presently in scaled form.
The scaled-loss scope contract (scaling on entry, unscale/restore on exit)
is the external backend boundary of spec section 4.2/6; the coordinator
source only contributes the `with` statement. -/
structure BackwardState where
  scale : Int
  gradsScaled : Bool
deriving DecidableEq, Repr

/-- Exit of the `amp.scale_loss` scope: gradients are unscaled/restored. -/
def scaleLossExit (st : BackwardState) : BackwardState :=
  { st with gradsScaled := false }

/-- `backward(model, closure_loss, optimizer, ...)` (lines 58-75):
`with amp.scale_loss(closure_loss, opt) as closure_loss:
  super().backward(model, closure_loss, ...)`.
The inherited backward is the arbitrary `innerBackward`, taking the loss it
is given and the current state and returning the new state together with
`some e` when it raises.  Python `with` semantics: the body receives the
scaled loss, and `__exit__` (here `scaleLossExit`) runs on both the normal
and the exceptional path, after which any exception propagates. -/
def backward (innerBackward : Int → BackwardState → BackwardState × Option MisconfigurationException)
    (closure_loss : Int) (st : BackwardState) :
    BackwardState × Option MisconfigurationException :=
  let scaledLoss := closure_loss * st.scale
  let res := innerBackward scaledLoss st
  (scaleLossExit res.1, res.2)

/-! ### Checkpoint bridging (`on_save_checkpoint` / `on_load_checkpoint`,
lines 118-123) -/

/-- The reserved checkpoint slot, plus the opaque scaler blobs it carries:
a checkpoint is the `Dict[str, Any]` restricted to string keys and blob
values. -/
def Checkpoint : Type := List (String × Nat)

/-- Python `checkpoint[k] = v`: overwrite the existing entry or append. -/
def setKey (cp : List (String × Nat)) (k : String) (v : Nat) :
    List (String × Nat) :=
  match cp with
  | [] => [(k, v)]
  | (k', v') :: rest => if k' = k then (k, v) :: rest else (k', v') :: setKey rest k v

/-- Python `k in checkpoint` / `checkpoint[k]` combined: first binding. -/
def lookupKey (cp : List (String × Nat)) (k : String) : Option Nat :=
  match cp with
  | [] => none
  | (k', v') :: rest => if k' = k then some v' else lookupKey rest k

/-- The apex backend's module-level scaler state: the opaque blob
`amp.state_dict()` serializes, plus a ghost counter of
`amp.load_state_dict` calls. -/
structure AmpBackend where
  state : Nat
  loadCalls : Nat
deriving DecidableEq, Repr

/-- External `amp.state_dict()`: returns the scaler state blob. -/
def amp_state_dict (b : AmpBackend) : Nat := b.state

/-- External `amp.load_state_dict(blob)`: installs the blob as the scaler
state. -/
def amp_load_state_dict (b : AmpBackend) (blob : Nat) : AmpBackend :=
  { state := blob, loadCalls := b.loadCalls + 1 }

/-- `on_save_checkpoint(checkpoint)` (lines 122-123): unconditionally
`checkpoint["amp_scaling_state"] = amp.state_dict()`. -/
def on_save_checkpoint (checkpoint : List (String × Nat)) (backend : AmpBackend) :
    List (String × Nat) :=
  setKey checkpoint "amp_scaling_state" (amp_state_dict backend)

/-- `on_load_checkpoint(checkpoint)` (lines 118-120): if
`"amp_scaling_state" in checkpoint`, call
`amp.load_state_dict(checkpoint["amp_scaling_state"])`; otherwise nothing
happens. -/
def on_load_checkpoint (checkpoint : List (String × Nat)) (backend : AmpBackend) :
    AmpBackend :=
  match lookupKey checkpoint "amp_scaling_state" with
  | some blob => amp_load_state_dict backend blob
  | none => backend

/-! ### `reinit_scheduler_properties` (lines 77-97) -/

/-- A class appearing in a scheduler's method resolution order: the two
recognized torch base classes (`torch.optim.lr_scheduler._LRScheduler`
and `torch.optim.lr_scheduler.ReduceLROnPlateau`) or any other class. -/
inductive SchedClass where
  | lrSchedulerBase
  | reduceLROnPlateau
  | other (tag : Nat)
deriving DecidableEq, Repr

/-- Line 90: membership of an mro entry in
`(torch.optim.lr_scheduler._LRScheduler, torch.optim.lr_scheduler.ReduceLROnPlateau)`. -/
def SchedClass.recognized : SchedClass → Bool
  | .lrSchedulerBase => true
  | .reduceLROnPlateau => true
  | .other _ => false

/-- A learning-rate scheduler object: its class's mro (most-derived first),
the optimizer it is bound to, and its internal counters (`last_epoch` step
count and an accumulated metric tracker such as a plateau `best`). -/
structure Scheduler where
  mro : List SchedClass
  optimizer : Optimizer
  last_epoch : Int
  best : Int
deriving DecidableEq, Repr

/-- One element of the `schedulers` argument: the dict whose
`"scheduler"` slot holds the scheduler object (line 82). -/
structure SchedulerEntry where
  scheduler : Scheduler
deriving DecidableEq, Repr

/-- `scheduler.state_dict()`: every attribute except the bound
`optimizer`. -/
def Scheduler.state_dict (s : Scheduler) : Int × Int := (s.last_epoch, s.best)

/-- `scheduler.load_state_dict(state)`: restores every attribute except the
bound `optimizer`. -/
def Scheduler.load_state_dict (s : Scheduler) (st : Int × Int) : Scheduler :=
  { s with last_epoch := st.1, best := st.2 }

/-- `scheduler.__class__.__mro__[i].__init__(scheduler, optimizer)`
(line 92): the recognized base class constructor rebinds the scheduler to
`optimizer` and resets its internal counters to their construction-time
values. -/
def baseClassInit (k : SchedClass) (s : Scheduler) (opt : Optimizer) : Scheduler :=
  match k with
  | .lrSchedulerBase => { s with optimizer := opt, last_epoch := 0, best := 0 }
  | .reduceLROnPlateau => { s with optimizer := opt, last_epoch := 0, best := 0 }
  | .other _ => s

/-- Lines 89-94: scan the mro (most-derived first) for the first recognized
base scheduler class. -/
def findRecognizedBase : List SchedClass → Option SchedClass
  | [] => none
  | c :: rest => if c.recognized then some c else findRecognizedBase rest

/-- The optimizer loop of lines 85-97 for one scheduler: on the first
optimizer with `scheduler.optimizer == optimizer` (object identity) whose
class hierarchy contains a recognized base, snapshot `state_dict`,
re-run the base constructor against that optimizer, restore the snapshot
and stop; when the match has no recognized base, `state` stays `None` and
the loop moves on; with no match the scheduler is untouched. -/
def repairScheduler (optimizers : List Optimizer) (sch : Scheduler) : Scheduler :=
  match optimizers with
  | [] => sch
  | opt :: rest =>
    if sch.optimizer = opt then
      match findRecognizedBase sch.mro with
      | some k => (baseClassInit k sch opt).load_state_dict sch.state_dict
      | none => repairScheduler rest sch
    else
      repairScheduler rest sch

/-- `reinit_scheduler_properties(optimizers, schedulers)` (lines 77-97):
repairs each entry's `"scheduler"` object in place (modelled as returning
the updated list). -/
def reinit_scheduler_properties (optimizers : List Optimizer)
    (schedulers : List SchedulerEntry) : List SchedulerEntry :=
  schedulers.map (fun e => { scheduler := repairScheduler optimizers e.scheduler })

/-! ## Theorems -/

/-- Helper: `dispatch` on an already-connected state does nothing. -/
theorem dispatch_connected_id (backendInit : String → List Optimizer → List Optimizer)
    (s : DispatchState) (h : s.connected = true) :
    dispatch backendInit s = s := by
  simp [dispatch, h]

/-- Helper: iterating `dispatch` on an already-connected state does
nothing. -/
theorem dispatch_iterate_connected_id
    (backendInit : String → List Optimizer → List Optimizer)
    (m : Nat) (s : DispatchState) (h : s.connected = true) :
    (dispatch backendInit)^[m] s = s := by
  induction m with
  | zero => rfl
  | succ m ih =>
    rw [Function.iterate_succ_apply, dispatch_connected_id backendInit s h, ih]

/-- C1: calling `dispatch` N>1 times (any N ≥ 1) from a fresh coordinator
(`_connected = False`, no backend calls yet) performs exactly one backend
initialization call, flips `_connected` to true for good, and leaves the
driver's optimizer list equal to the list the backend initializer returned,
unchanged by every subsequent `dispatch`. -/
theorem dispatch_single_backend_init
    (backendInit : String → List Optimizer → List Optimizer)
    (s₀ : DispatchState) (n : Nat)
    (hconn : s₀.connected = false) (hcalls : s₀.backendInitCalls = 0)
    (hn : 1 ≤ n) :
    ((dispatch backendInit)^[n] s₀).backendInitCalls = 1 ∧
    ((dispatch backendInit)^[n] s₀).connected = true ∧
    ((dispatch backendInit)^[n] s₀).optimizers =
      backendInit s₀.amp_level s₀.optimizers := by
  obtain ⟨m, rfl⟩ : ∃ m, n = m + 1 := ⟨n - 1, (Nat.succ_pred_eq_of_pos hn).symm⟩
  have h1 : dispatch backendInit s₀ =
      { connected := true
        amp_level := s₀.amp_level
        optimizers := backendInit s₀.amp_level s₀.optimizers
        backendInitCalls := s₀.backendInitCalls + 1 } := by
    simp [dispatch, hconn]
  rw [Function.iterate_succ_apply, h1,
    dispatch_iterate_connected_id backendInit m _ rfl]
  simp [hcalls]

/-- Witness for C1 at a concrete input: three dispatches on a fresh state. -/
theorem dispatch_single_backend_init_witness :
    ((dispatch (fun _ os => os ++ [⟨7⟩]))^[3] ⟨false, "O2", [⟨1⟩], 0⟩).backendInitCalls = 1 ∧
    ((dispatch (fun _ os => os ++ [⟨7⟩]))^[3] ⟨false, "O2", [⟨1⟩], 0⟩).connected = true ∧
    ((dispatch (fun _ os => os ++ [⟨7⟩]))^[3] ⟨false, "O2", [⟨1⟩], 0⟩).optimizers = [⟨1⟩, ⟨7⟩] :=
  dispatch_single_backend_init (fun _ os => os ++ [⟨7⟩]) ⟨false, "O2", [⟨1⟩], 0⟩ 3
    rfl rfl (by decide)

/-- C2: with a compatible (non-LBFGS) optimizer, the real `optimizer.step`
runs unless the model is a `LightningModule` in automatic optimization and
the closure returned `None`: in automatic mode a `None` closure result
suppresses the step and a value triggers it; in manual mode the step always
runs. -/
theorem optimizer_step_gating (optimizer : StepOptimizer) (optimizer_idx : Nat)
    (hcompat : optimizer.isLBFGS = false) :
    (optimizer_step (.lightningModule true) optimizer optimizer_idx none).stepCalls = 0 ∧
    (∀ v : Int,
      (optimizer_step (.lightningModule true) optimizer optimizer_idx (some v)).stepCalls = 1) ∧
    (∀ res : Option Int,
      (optimizer_step (.lightningModule false) optimizer optimizer_idx res).stepCalls = 1) := by
  refine ⟨?_, ?_, ?_⟩ <;> simp [optimizer_step, hcompat]

/-- Witness for C2 at a concrete compatible optimizer. -/
theorem optimizer_step_gating_witness :
    (optimizer_step (.lightningModule true) ⟨false⟩ 0 none).stepCalls = 0 ∧
    (optimizer_step (.lightningModule true) ⟨false⟩ 0 (some 5)).stepCalls = 1 ∧
    (optimizer_step (.lightningModule false) ⟨false⟩ 0 none).stepCalls = 1 :=
  ⟨(optimizer_step_gating ⟨false⟩ 0 rfl).1,
    (optimizer_step_gating ⟨false⟩ 0 rfl).2.1 5,
    (optimizer_step_gating ⟨false⟩ 0 rfl).2.2 none⟩

/-- C10: when the model passed to `optimizer_step` is a plain module rather
than a `LightningModule` (and the optimizer is compatible), the real
optimizer step is always invoked, whether or not the closure returned a
result: the automatic-optimization suppression applies only to
`LightningModule` models. -/
theorem optimizer_step_plain_module (optimizer : StepOptimizer)
    (optimizer_idx : Nat) (res : Option Int)
    (hcompat : optimizer.isLBFGS = false) :
    (optimizer_step .plainModule optimizer optimizer_idx res).stepCalls = 1 := by
  simp [optimizer_step, hcompat]

/-- Witness for C10: plain module, closure returned `None`, step still runs. -/
theorem optimizer_step_plain_module_witness :
    (optimizer_step .plainModule ⟨false⟩ 2 none).stepCalls = 1 :=
  optimizer_step_plain_module ⟨false⟩ 2 none rfl

/-- C6: with an LBFGS optimizer, `optimizer_step` raises the
misconfiguration error before any closure evaluation: the closure is never
invoked, no optimizer step is performed, and the message carries the
offending optimizer index. -/
theorem optimizer_step_lbfgs_fails_fast (model : StepModel)
    (optimizer : StepOptimizer) (optimizer_idx : Nat) (res : Option Int)
    (hlbfgs : optimizer.isLBFGS = true) :
    optimizer_step model optimizer optimizer_idx res =
      { closureCalls := 0
        afterClosureCalls := 0
        stepCalls := 0
        error := some ⟨lbfgsErrorMsg optimizer_idx⟩ } ∧
    ∃ a b, lbfgsErrorMsg optimizer_idx = a ++ toString optimizer_idx ++ b := by
  constructor
  · simp [optimizer_step, hlbfgs]
  · exact ⟨"apex AMP and the LBFGS optimizer are not compatible (optimizer ",
      ").", rfl⟩

/-- Witness for C6: LBFGS optimizer at index 3 on a plain module. -/
theorem optimizer_step_lbfgs_fails_fast_witness :
    optimizer_step .plainModule ⟨true⟩ 3 none =
      { closureCalls := 0
        afterClosureCalls := 0
        stepCalls := 0
        error := some ⟨lbfgsErrorMsg 3⟩ } ∧
    ∃ a b, lbfgsErrorMsg 3 = a ++ toString 3 ++ b :=
  optimizer_step_lbfgs_fails_fast .plainModule ⟨true⟩ 3 none rfl

/-- C7: constructing the plugin when apex is unavailable fails at
construction time with the misconfiguration error, whose message names the
missing `apex` dependency and carries installation guidance. -/
theorem init_without_apex_raises (amp_level : String) :
    ApexMixedPrecisionPlugin.init false amp_level = .error ⟨apexNotInstalledMsg⟩ ∧
    (∃ a b, apexNotInstalledMsg = a ++ "apex" ++ b) ∧
    (∃ a b, apexNotInstalledMsg = a ++ "Install" ++ b) ∧
    (∃ a b, apexNotInstalledMsg = a ++ "https://github.com/NVIDIA/apex" ++ b) := by
  refine ⟨rfl, ⟨"You have asked for Apex AMP but you have not installed it. Install `",
      "` using this guide: https://github.com/NVIDIA/apex", by decide⟩,
    ⟨"You have asked for Apex AMP but you have not installed it. ",
      " `apex` using this guide: https://github.com/NVIDIA/apex", by decide⟩,
    ⟨"You have asked for Apex AMP but you have not installed it. Install `apex` using this guide: ",
      "", by decide⟩⟩

/-- C4: `backward` wraps the inherited backward in the scaled-loss scope:
the inner backward receives the scaled loss, and on every exit path —
whether the inner backward returned normally or raised — the scope is
released and gradients are left unscaled; a raised exception propagates
unmodified. -/
theorem backward_releases_scope
    (innerBackward : Int → BackwardState → BackwardState × Option MisconfigurationException)
    (closure_loss : Int) (st : BackwardState) :
    (backward innerBackward closure_loss st).1.gradsScaled = false ∧
    (backward innerBackward closure_loss st).2 =
      (innerBackward (closure_loss * st.scale) st).2 :=
  ⟨rfl, rfl⟩

/-- C5 counterexample: with no explicit optimizer and a sole trainer
optimizer, the value passed to `amp.scale_loss` is the whole optimizer
*list*, not the sole optimizer object itself. -/
theorem resolveBackwardOpt_counterexample :
    resolveBackwardOpt none [⟨1⟩] = AmpOptArg.many [⟨1⟩] ∧
    resolveBackwardOpt none [⟨1⟩] ≠ AmpOptArg.single ⟨1⟩ :=
  ⟨rfl, by decide⟩

/-- C5 (amended): the effective optimizer argument handed to the backend's
`scaleLoss` is the explicit optimizer argument when one is provided, and
otherwise it is the trainer's entire optimizer list. -/
theorem resolveBackwardOpt_spec (o : Optimizer) (os : List Optimizer) :
    resolveBackwardOpt (some o) os = AmpOptArg.single o ∧
    resolveBackwardOpt none os = AmpOptArg.many os :=
  ⟨rfl, rfl⟩

/-- Helper: looking up a key just written by `setKey` returns the written
value. -/
theorem lookupKey_setKey (cp : List (String × Nat)) (k : String) (v : Nat) :
    lookupKey (setKey cp k v) k = some v := by
  induction cp with
  | nil => simp [setKey, lookupKey]
  | cons p rest ih =>
    obtain ⟨k', v'⟩ := p
    by_cases h : k' = k
    · simp [setKey, lookupKey, h]
    · simp [setKey, lookupKey, h, ih]

/-- C3: every save writes the scaler blob under the reserved key
`"amp_scaling_state"`, unconditionally; consequently loading the checkpoint
saved from an empty mapping restores the backend scaler state that was
current at save time. -/
theorem checkpoint_roundtrip (cp : List (String × Nat))
    (backend backendAtLoad : AmpBackend) :
    lookupKey (on_save_checkpoint cp backend) "amp_scaling_state" =
      some (amp_state_dict backend) ∧
    (on_load_checkpoint (on_save_checkpoint [] backend) backendAtLoad).state =
      backend.state :=
  ⟨lookupKey_setKey cp _ _, rfl⟩

/-- C9: loading a checkpoint without the reserved `"amp_scaling_state"`
key raises nothing and leaves the backend untouched —
`amp.load_state_dict` is never called (the call counter is unchanged). -/
theorem on_load_checkpoint_missing_key_noop (cp : List (String × Nat))
    (backend : AmpBackend)
    (h : lookupKey cp "amp_scaling_state" = none) :
    on_load_checkpoint cp backend = backend := by
  simp [on_load_checkpoint, h]

/-- Witness for C9: a checkpoint holding only an unrelated key. -/
theorem on_load_checkpoint_missing_key_noop_witness :
    on_load_checkpoint [("epoch", 3)] ⟨5, 0⟩ = ⟨5, 0⟩ :=
  on_load_checkpoint_missing_key_noop [("epoch", 3)] ⟨5, 0⟩ (by decide)

/-- Helper: `findRecognizedBase` only returns recognized classes. -/
theorem findRecognizedBase_recognized (l : List SchedClass) (k : SchedClass)
    (h : findRecognizedBase l = some k) : k.recognized = true := by
  induction l with
  | nil => exact absurd h (by simp [findRecognizedBase])
  | cons c rest ih =>
    unfold findRecognizedBase at h
    split at h
    · cases h
      assumption
    · exact ih h

/-- Helper: when the first identity match for the scheduler's bound
optimizer is `opt` and the mro holds a recognized base, `repairScheduler`
rebinds the scheduler to `opt` and restores everything else. -/
theorem repairScheduler_preserves (optimizers : List Optimizer)
    (sch : Scheduler) (opt : Optimizer) (k : SchedClass)
    (hfind : optimizers.find? (fun o => sch.optimizer == o) = some opt)
    (hbase : findRecognizedBase sch.mro = some k) :
    repairScheduler optimizers sch = { sch with optimizer := opt } := by
  induction optimizers with
  | nil => exact absurd hfind (by simp)
  | cons opt' rest ih =>
    by_cases heq : sch.optimizer = opt'
    · rw [List.find?_cons_of_pos _ (by simp [heq])] at hfind
      cases hfind
      have hk := findRecognizedBase_recognized sch.mro k hbase
      unfold repairScheduler
      rw [if_pos heq, hbase]
      cases k <;>
        simp_all [baseClassInit, Scheduler.load_state_dict, Scheduler.state_dict,
          SchedClass.recognized]
    · rw [List.find?_cons_of_neg _ (by simp [heq])] at hfind
      unfold repairScheduler
      rw [if_neg heq]
      exact ih hfind

/-- C8: for a scheduler at internal step count `last_epoch = K` whose bound
optimizer identity-matches an optimizer of the given list and whose class
hierarchy holds a recognized base scheduler class,
`reinit_scheduler_properties` rebuilds it via that base constructor and the
state snapshot, so that afterwards the step count is still `K` (and the
rest of the snapshotted state is intact) and the bound optimizer is the
matching optimizer object from the list. -/
theorem reinit_scheduler_properties_preserves (optimizers : List Optimizer)
    (entries : List SchedulerEntry) (i : Nat) (sch : Scheduler)
    (opt : Optimizer) (k : SchedClass)
    (hentry : entries[i]? = some ⟨sch⟩)
    (hfind : optimizers.find? (fun o => sch.optimizer == o) = some opt)
    (hbase : findRecognizedBase sch.mro = some k) :
    (reinit_scheduler_properties optimizers entries)[i]? =
      some ⟨{ sch with optimizer := opt }⟩ := by
  unfold reinit_scheduler_properties
  rw [List.getElem?_map, hentry]
  simp [repairScheduler_preserves optimizers sch opt k hfind hbase]

/-- Witness for C8: one scheduler at step count 7, derived class in front
of the recognized base in its mro, bound to the sole listed optimizer. -/
theorem reinit_scheduler_properties_preserves_witness :
    (reinit_scheduler_properties [⟨5⟩]
      [⟨⟨[.other 0, .lrSchedulerBase], ⟨5⟩, 7, 3⟩⟩])[0]? =
      some ⟨⟨[.other 0, .lrSchedulerBase], ⟨5⟩, 7, 3⟩⟩ :=
  reinit_scheduler_properties_preserves [⟨5⟩]
    [⟨⟨[.other 0, .lrSchedulerBase], ⟨5⟩, 7, 3⟩⟩] 0
    ⟨[.other 0, .lrSchedulerBase], ⟨5⟩, 7, 3⟩
    ⟨5⟩ .lrSchedulerBase rfl (by decide) rfl

end ApexAmp
